import Mathlib

/-!
Verification development for the Black Duck Security Action repository.

The orchestrator in src/test.ts (`run`, `handleExitCode`, `logBridgeExitCodes`,
`getBridgeExitCodeAsNumericValue`, `getBridgeExitCode`) is embedded shallowly:
the ambient inputs and the outcomes of the collaborator calls
(`prepareCommand`, `downloadBridge`, `validateBridgePath`,
`executeBridgeCommand`) are gathered in an explicit environment record, and
`run` is a pure function from that environment to the observable effects
(return value or thrown error, `setOutput` call, diagnostics and SARIF
uploads).  JavaScript string operations used on error messages
(`trim`, `slice(-1)`, `parseInt`, `parseFloat`) are embedded for the
argument shapes at which the source applies them.

The Bridge acquisition decision engine (the Bridge class of
blackduck-security-action/bridge-cli.ts) is not part of the sources here;
only its caller and design documents are.  Its decision function `resolve`
is therefore modelled from the specification, as marked on the definition.
-/

namespace ScanApp

/-- Whitespace recognised by JavaScript String.prototype.trim, restricted to
the ASCII range (tab, line feed, vertical tab, form feed, carriage return,
space); the Unicode space classes are not needed for any message considered
here. -/
def jsIsWhitespace (c : Char) : Bool :=
  c == ' ' || c == '\t' || c == '\n' || c == '\r' ||
  c == Char.ofNat 11 || c == Char.ofNat 12

/-- Embedding of JavaScript `s.trim()`: drop leading and trailing whitespace. -/
def jsTrim (s : String) : String :=
  String.mk (((s.toList.dropWhile jsIsWhitespace).reverse.dropWhile jsIsWhitespace).reverse)

/-- Embedding of JavaScript `s.slice(-1)`: the string holding the last
character, or the empty string when `s` is empty. -/
def jsSliceLast (s : String) : String :=
  match s.toList.getLast? with
  | some c => String.mk [c]
  | none => ""

/-- Embedding of JavaScript `parseInt(s)` restricted to strings of at most one
character, the only shape the source applies it to (the result of
`slice(-1)`).  A single decimal digit parses to its value; every other
single character, and the empty string, give NaN (`none`). -/
def jsParseIntSingle (s : String) : Option Int :=
  match s.toList with
  | [c] => if c.isDigit then some ((c.toNat : Int) - 48) else none
  | _ => none

/-- Embedding of `!isNaN(parseFloat(s))` restricted to strings of at most one
character: only a single decimal digit parses to a number. -/
def jsParseFloatSingleIsNumber (s : String) : Bool :=
  match s.toList with
  | [c] => c.isDigit
  | _ => false

/-- Embedding of `getBridgeExitCodeAsNumericValue` from src/test.ts.
`error.message` is `Option String` to reflect the `undefined` check. -/
def getBridgeExitCodeAsNumericValue (message : Option String) : Int :=
  match message with
  | some msg =>
    let lastChar := jsSliceLast (jsTrim msg)
    match jsParseIntSingle lastChar with
    | some exitCode => exitCode
    | none => -1
  | none => -1

/-- Embedding of `getBridgeExitCode` from src/test.ts: whether the trimmed
message ends in a character that `parseFloat` accepts as a number. -/
def getBridgeExitCode (message : Option String) : Bool :=
  match message with
  | some msg => jsParseFloatSingleIsNumber (jsSliceLast (jsTrim msg))
  | none => false

/-- Modelled from the spec: `constants.BRIDGE_BREAK_EXIT_CODE` lives in the
application-constants module, which is not among the sources; the spec fixes
the policy-violation sentinel at 8 and the repository comments agree. -/
def BRIDGE_BREAK_EXIT_CODE : Int := 8

/-- Modelled from the spec: the `constants.BUILD_STATUS.SUCCESS` marker of the
missing application-constants module. -/
def BUILD_STATUS_SUCCESS : String := "SUCCESS"

/-- Modelled from the spec: the `constants.BUILD_STATUS.UNSTABLE` marker of the
missing application-constants module. -/
def BUILD_STATUS_UNSTABLE : String := "UNSTABLE"

/-- Modelled from the spec: `constants.EXIT_CODE_MAP` is declared in the
missing application-constants module; only the policy-violation entry for
exit code 8 is attested by the repository tests. -/
def EXIT_CODE_MAP : List (String × String) :=
  [("8", "Policy Violation Detected")]

/-- Embedding of `logBridgeExitCodes` from src/test.ts. -/
def logBridgeExitCodes (message : String) : String :=
  let exitCode := jsSliceLast (jsTrim message)
  match EXIT_CODE_MAP.lookup exitCode with
  | some description => "Exit Code: " ++ exitCode ++ " " ++ description
  | none => message

/-- Rendering of a `number | undefined` value inside a template literal. -/
def renderOptInt : Option Int → String
  | some n => toString n
  | none => "undefined"

/-- The single log line emitted by `handleExitCode`, one constructor per
branch of the source: the debug line of the success and unstable-break
branch, the policy-violation warning, and the generic failure warning. -/
inductive ExitLog where
  | debugCompleted (exitCode : Option Int)
  | warnPolicyViolationContinues (exitCode : Option Int)
  | warnFailedContinues (message : String)
deriving DecidableEq

/-- Embedding of `handleExitCode` from src/test.ts.  The function only logs;
it returns no value and throws nothing, so its whole observable behaviour is
the log line.  `markBuildStatus` is the ambient `config.markBuildStatus`
input, and `errorMessage` has source default `''`. -/
def handleExitCode (exitCode : Option Int) (markBuildStatus : String)
    (errorMessage : String) : ExitLog :=
  let isPolicyViolation := exitCode == some 8
  let isSuccess := exitCode == some 0 || markBuildStatus == BUILD_STATUS_SUCCESS
  let isUnstableBreak :=
    markBuildStatus == BUILD_STATUS_UNSTABLE && exitCode == some BRIDGE_BREAK_EXIT_CODE
  if isSuccess || isUnstableBreak then
    .debugCompleted exitCode
  else if isPolicyViolation then
    .warnPolicyViolationContinues exitCode
  else
    let message :=
      if errorMessage == "" then "Unknown exit code: " ++ renderOptInt exitCode
      else logBridgeExitCodes errorMessage
    .warnFailedContinues message

/-- The ambient inputs of src/test.ts (`inputs.*`, `isPullRequestEvent()`)
together with the outcomes of the awaited collaborator calls, gathered into
one immutable record so `run` becomes a pure function. -/
structure RunEnv where
  enableNetworkAirGap : Bool
  markBuildStatus : String
  returnStatus : Bool
  includeDiagnostics : Bool
  isPullRequest : Bool
  blackduckScaUrlSet : Bool
  blackduckScaSarifCreate : Bool
  polarisServerUrlSet : Bool
  polarisSarifCreate : Bool
  githubTokenSet : Bool
  blackduckUploadSarifReport : Bool
  polarisUploadSarifReport : Bool
  prepareCommand : Except String String
  downloadBridge : Except String Unit
  validateBridgePath : Except String Unit
  executeBridgeCommand : Except String Int

/-- The try block of `run`: prepare the command, then download the bridge
(non-airgap) or validate its path (airgap), then execute.  The first
component records whether `executeBridgeCommand` was reached at all. -/
def tryPhase (env : RunEnv) : Bool × Except String Int :=
  match env.prepareCommand with
  | .error m => (false, .error m)
  | .ok _ =>
    match (if !env.enableNetworkAirGap then env.downloadBridge else env.validateBridgePath) with
    | .error m => (false, .error m)
    | .ok _ => (true, env.executeBridgeCommand)

/-- The observable effects of one invocation of `run`:
the try outcome, the `exitCode` and `isBridgeExecuted` state after the
try/catch, the log of `handleExitCode` when it ran, the promise result
(`run` returns the exit code or rethrows the error), the value passed to
`setOutput` when `return_status` is set, and the upload actions of the
finally block. -/
structure RunResult where
  execAttempted : Bool
  tryOutcome : Except String Int
  exitCode : Option Int
  isBridgeExecuted : Bool
  exitLog : Option ExitLog
  result : Except String (Option Int)
  outputSet : Option (Option Int)
  diagnosticsUploaded : Bool
  blackduckSarifArtifactUploaded : Bool
  polarisSarifArtifactUploaded : Bool
  blackduckSarifReportUploaded : Bool
  polarisSarifReportUploaded : Bool

/-- Embedding of `run` from src/test.ts.  In the try path `isBridgeExecuted`
stays `false` (the assignment at its success branch is commented out in the
source); in the catch path `exitCode` and `isBridgeExecuted` are recovered
from the error message and the error is rethrown.  The finally block sets
the output when `return_status` is set and gates every upload behind
`isBridgeExecuted`, the SARIF ones additionally behind the pull-request
check and the exit code being 0 or 8. -/
def run (env : RunEnv) : RunResult :=
  let attempted := (tryPhase env).1
  let outcome := (tryPhase env).2
  let exitCode : Option Int :=
    match outcome with
    | .ok n => some n
    | .error m => some (getBridgeExitCodeAsNumericValue (some m))
  let isBridgeExecuted : Bool :=
    match outcome with
    | .ok _ => false
    | .error m => getBridgeExitCode (some m)
  let exitLog : Option ExitLog :=
    match outcome with
    | .ok n => some (handleExitCode (some n) env.markBuildStatus "")
    | .error _ => none
  let result : Except String (Option Int) :=
    match outcome with
    | .ok n => .ok (some n)
    | .error m => .error m
  let outputSet : Option (Option Int) :=
    if env.returnStatus then some exitCode else none
  let uploadSarifReportBasedOnExitCode : Bool :=
    exitCode == some 0 || exitCode == some 8
  let sarifGate : Bool :=
    isBridgeExecuted && !env.isPullRequest && uploadSarifReportBasedOnExitCode
  { execAttempted := attempted
    tryOutcome := outcome
    exitCode := exitCode
    isBridgeExecuted := isBridgeExecuted
    exitLog := exitLog
    result := result
    outputSet := outputSet
    diagnosticsUploaded := isBridgeExecuted && env.includeDiagnostics
    blackduckSarifArtifactUploaded :=
      sarifGate && env.blackduckScaUrlSet && env.blackduckScaSarifCreate
    polarisSarifArtifactUploaded :=
      sarifGate && env.polarisServerUrlSet && env.polarisSarifCreate
    blackduckSarifReportUploaded :=
      sarifGate && env.githubTokenSet && env.blackduckScaUrlSet && env.blackduckUploadSarifReport
    polarisSarifReportUploaded :=
      sarifGate && env.githubTokenSet && env.polarisServerUrlSet && env.polarisUploadSarifReport }

/-- Whether the invocation is reported as a failure to the CI host: the
top-level `run().catch` in src/test.ts calls `setFailed` exactly when the
promise returned by `run` rejects. -/
def reportedAsFailure (r : RunResult) : Bool :=
  match r.result with
  | .ok _ => false
  | .error _ => true

/-- Whether any of the four SARIF upload actions of the finally block ran. -/
def anySarifUploaded (r : RunResult) : Bool :=
  r.blackduckSarifArtifactUploaded || r.polarisSarifArtifactUploaded ||
  r.blackduckSarifReportUploaded || r.polarisSarifReportUploaded

/-- Modelled from the spec: the single configuration error kind of the
acquisition Resolver (the Bridge class of bridge-cli.ts is not among the
sources). -/
inductive ConfigErrorKind where
  | airgapBinaryUnavailable
deriving DecidableEq

/-- Modelled from the spec: the immutable per-invocation acquisition request. -/
structure AcquisitionRequest where
  airgapEnabled : Bool
  thinClientEnabled : Bool
  cached : Bool
  cachedVersion : Option String
  customUrl : Option String
  requestedVersion : Option String
  requestedWorkflowVersion : Option String

/-- Modelled from the spec: the closed set of acquisition decisions. -/
inductive AcquisitionDecision where
  | skip
  | downloadLatest
  | downloadVersion (version : String)
  | downloadFromCustomUrl (url : String)
  | error (reason : ConfigErrorKind)
deriving DecidableEq

/-- Whether the cached version equals an explicitly requested version; a
missing request (latest) never matches, per the tie-break rule of the spec. -/
def versionMatchesCache (req : AcquisitionRequest) : Bool :=
  match req.requestedVersion with
  | some v => req.cachedVersion == some v
  | none => false

/-- Modelled from the spec: the acquisition decision function of section 4.1,
an ordered rule list with first match winning.  The Bridge class that
realises it (bridge-cli.ts) is not among the sources; this definition
follows the precedence order of the spec: airgap without cache or custom
source errors out, a cache is kept when nothing explicit is requested or
the explicit version matches, and otherwise the custom URL wins over the
default repository, which serves the pinned version or the latest. -/
def resolve (req : AcquisitionRequest) : AcquisitionDecision :=
  if req.airgapEnabled && !req.cached && req.customUrl.isNone then
    .error .airgapBinaryUnavailable
  else if req.cached && req.customUrl.isNone && req.requestedVersion.isNone then
    .skip
  else if req.cached && versionMatchesCache req then
    .skip
  else
    match req.customUrl with
    | some u => .downloadFromCustomUrl u
    | none =>
      if req.airgapEnabled then .error .airgapBinaryUnavailable
      else
        match req.requestedVersion with
        | some v => .downloadVersion v
        | none => .downloadLatest

/-- A baseline environment: non-airgap, all collaborator calls succeeding with
exit code 0, all optional inputs off except `return_status`. -/
def baseEnv : RunEnv where
  enableNetworkAirGap := false
  markBuildStatus := ""
  returnStatus := true
  includeDiagnostics := false
  isPullRequest := false
  blackduckScaUrlSet := false
  blackduckScaSarifCreate := false
  polarisServerUrlSet := false
  polarisSarifCreate := false
  githubTokenSet := false
  blackduckUploadSarifReport := false
  polarisUploadSarifReport := false
  prepareCommand := .ok "cmd"
  downloadBridge := .ok ()
  validateBridgePath := .ok ()
  executeBridgeCommand := .ok 0

/-- Bridge exits 8 under mark_build_status FAILURE. -/
def envFailure8 : RunEnv :=
  { baseEnv with markBuildStatus := "FAILURE", executeBridgeCommand := .ok 8 }

/-- Bridge exits 8 under mark_build_status UNSTABLE. -/
def envUnstable8 : RunEnv :=
  { baseEnv with markBuildStatus := "UNSTABLE", executeBridgeCommand := .ok 8 }

/-- Bridge exits -1 under mark_build_status FAILURE. -/
def envFailureNeg1 : RunEnv :=
  { baseEnv with markBuildStatus := "FAILURE", executeBridgeCommand := .ok (-1) }

/-- Successful run with `return_status` disabled. -/
def envNoReturnStatus : RunEnv :=
  { baseEnv with returnStatus := false }

/-- Airgap mode with the bridge path validation failing. -/
def envAirgapInvalid : RunEnv :=
  { baseEnv with enableNetworkAirGap := true,
                 validateBridgePath := .error "Bridge CLI path not found" }

/-- Bridge returns exit code 8 normally, with diagnostics and SARIF inputs
switched on. -/
def envOkExit8 : RunEnv :=
  { baseEnv with executeBridgeCommand := .ok 8, includeDiagnostics := true,
                 blackduckScaUrlSet := true, blackduckScaSarifCreate := true }

/-- Bridge execution throws with a message ending in the digit 8, with
diagnostics and SARIF inputs switched on. -/
def envErrDigit : RunEnv :=
  { baseEnv with executeBridgeCommand := .error "Bridge exited with code 8",
                 includeDiagnostics := true,
                 blackduckScaUrlSet := true, blackduckScaSarifCreate := true }

/-- Bridge execution throws with a message ending in the multi-digit code 12. -/
def envErrMsg12 : RunEnv :=
  { baseEnv with executeBridgeCommand := .error "Bridge failed with exit code 12" }

/-- Successful run with exit code 5. -/
def envOkExit5 : RunEnv :=
  { baseEnv with executeBridgeCommand := .ok 5 }

/-- Successful run with exit code 7 under mark_build_status SUCCESS. -/
def envSuccess7 : RunEnv :=
  { baseEnv with markBuildStatus := "SUCCESS", executeBridgeCommand := .ok 7 }

/-- Airgap request with no cache and no custom URL. -/
def reqAirgapBare : AcquisitionRequest where
  airgapEnabled := true
  thinClientEnabled := false
  cached := false
  cachedVersion := none
  customUrl := none
  requestedVersion := none
  requestedWorkflowVersion := none

/-- Airgap request with a custom URL, not cached. -/
def reqCustomAirgap : AcquisitionRequest :=
  { reqAirgapBare with customUrl := some "https://intranet.example/bridge.zip" }

/-- Non-airgap request, cached, version 2.2.0 requested while 2.1.1 cached. -/
def reqCachedMismatch : AcquisitionRequest where
  airgapEnabled := false
  thinClientEnabled := false
  cached := true
  cachedVersion := some "2.1.1"
  customUrl := none
  requestedVersion := some "2.2.0"
  requestedWorkflowVersion := none

/-- C1: a request with airgap enabled, no cached binary and no custom URL
resolves to the airgap-unavailable configuration error, and the error is
fatal: whenever the airgap-mode bridge path validation fails, `run` aborts
before `executeBridgeCommand` is ever attempted and the invocation is
reported as failed. -/
theorem c1_airgap_error_and_abort (req : AcquisitionRequest)
    (h1 : req.airgapEnabled = true) (h2 : req.cached = false) (h3 : req.customUrl = none)
    (env : RunEnv) (m : String)
    (h4 : env.enableNetworkAirGap = true) (h5 : env.validateBridgePath = .error m) :
    resolve req = .error .airgapBinaryUnavailable ∧
    (run env).execAttempted = false ∧ reportedAsFailure (run env) = true := by
  refine ⟨?_, ?_, ?_⟩
  · simp [resolve, h1, h2, h3]
  · cases hp : env.prepareCommand <;> simp [run, tryPhase, hp, h4, h5]
  · cases hp : env.prepareCommand <;>
      simp [run, tryPhase, reportedAsFailure, hp, h4, h5]

/-- Witness for C1 at the concrete bare airgap request and an environment
whose bridge path validation fails. -/
theorem c1_airgap_error_and_abort_witness :
    resolve reqAirgapBare = .error .airgapBinaryUnavailable ∧
    (run envAirgapInvalid).execAttempted = false ∧
    reportedAsFailure (run envAirgapInvalid) = true :=
  c1_airgap_error_and_abort reqAirgapBare rfl rfl rfl envAirgapInvalid
    "Bridge CLI path not found" rfl rfl

/-- C2, code behaviour at the failing input: with mark_build_status FAILURE
and exit code 8, `handleExitCode` emits the warning that the pipeline
continues as successful, and `run` resolves normally with the exit code —
the invocation is never treated as a failure, contrary to the claim and to
the expectations of the repository test suite (src/sample.ts). -/
theorem c2_failure_mode_exit8_pipeline_continues :
    handleExitCode (some 8) "FAILURE" "" = .warnPolicyViolationContinues (some 8) ∧
    reportedAsFailure (run envFailure8) = false ∧
    (run envFailure8).result = .ok (some 8) :=
  ⟨rfl, rfl, rfl⟩

/-- C4: whenever the exit code is 0 or the configured build status mode is
SUCCESS, the classifier takes its success branch (a debug completion log),
and a normally returning bridge execution is never reported as a failure to
the CI host. -/
theorem c4_zero_or_success_not_failure :
    (∀ (n : Int) (mode : String), n = 0 ∨ mode = BUILD_STATUS_SUCCESS →
      handleExitCode (some n) mode "" = .debugCompleted (some n)) ∧
    (∀ (env : RunEnv) (n : Int), (tryPhase env).2 = .ok n →
      reportedAsFailure (run env) = false) := by
  constructor
  · rintro n mode (rfl | rfl) <;>
      simp [handleExitCode, BUILD_STATUS_SUCCESS, BUILD_STATUS_UNSTABLE]
  · intro env n h
    simp [run, reportedAsFailure, h]

/-- Witness for C4 at exit code 0 with an arbitrary mode and at the concrete
environment returning exit code 7 under SUCCESS mode. -/
theorem c4_zero_or_success_not_failure_witness :
    handleExitCode (some 0) "FAILURE" "" = .debugCompleted (some 0) ∧
    reportedAsFailure (run envSuccess7) = false :=
  ⟨c4_zero_or_success_not_failure.1 0 "FAILURE" (Or.inl rfl),
   c4_zero_or_success_not_failure.2 envSuccess7 7 rfl⟩

/-- C5, code behaviour at the failing input: with mark_build_status UNSTABLE
and exit code 8, `handleExitCode` takes the silent success branch and only
logs the debug completion line; no message stating that the policy
violations are treated as unstable is produced, contrary to the claim and
to the expectations of the repository test suite (src/sample.ts). -/
theorem c5_unstable_mode_exit8_debug_only :
    handleExitCode (some 8) "UNSTABLE" "" = .debugCompleted (some 8) ∧
    reportedAsFailure (run envUnstable8) = false ∧
    (run envUnstable8).result = .ok (some 8) :=
  ⟨rfl, rfl, rfl⟩

/-- C6, code behaviour at the failing input: with mark_build_status FAILURE
and the unknown exit code -1, `handleExitCode` logs the warning carrying
the text Unknown exit code: -1 but the pipeline continues and `run`
resolves normally — the outcome is never treated as a failure, contrary to
the claim and to the expectations of the repository test suite
(src/sample.ts). -/
theorem c6_unknown_code_warns_but_continues :
    handleExitCode (some (-1)) "FAILURE" "" =
      .warnFailedContinues ("Unknown exit code: " ++ toString (-1 : Int)) ∧
    reportedAsFailure (run envFailureNeg1) = false ∧
    (run envFailureNeg1).result = .ok (some (-1)) :=
  ⟨rfl, rfl, rfl⟩

/-- C7 counterexample: on a successful run with exit code 0 but with the
return_status input disabled, no output variable is recorded at all, so the
raw exit code is not always recorded as an output of the invocation. -/
theorem c7_counterexample_no_output_without_return_status :
    (run envNoReturnStatus).outputSet = none ∧
    (run envNoReturnStatus).result = .ok (some 0) :=
  ⟨rfl, rfl⟩

/-- C7 amended: when the return_status input is enabled the recorded output
always equals the exit-code state, in the error path as well; a normally
returning execution reports exactly the raw exit code as both the output
and the return value; and every branch of the classifier surfaces exactly
the raw exit code in its log line. -/
theorem c7_raw_exit_code_reported (env : RunEnv) (h : env.returnStatus = true) :
    (run env).outputSet = some ((run env).exitCode) ∧
    (∀ n : Int, (tryPhase env).2 = .ok n →
      (run env).exitCode = some n ∧ (run env).result = .ok (some n)) ∧
    (∀ (n : Int) (mode : String),
      handleExitCode (some n) mode "" = .debugCompleted (some n) ∨
      handleExitCode (some n) mode "" = .warnPolicyViolationContinues (some n) ∨
      handleExitCode (some n) mode "" = .warnFailedContinues ("Unknown exit code: " ++ toString n)) := by
  refine ⟨?_, ?_, ?_⟩
  · simp [run, h]
  · intro n hn
    simp [run, hn]
  · intro n mode
    by_cases hs : ((some n == (some 0 : Option Int)) || (mode == BUILD_STATUS_SUCCESS)
        || ((mode == BUILD_STATUS_UNSTABLE) && (some n == some BRIDGE_BREAK_EXIT_CODE))) = true
    · left
      simp only [handleExitCode]
      rw [if_pos]
      simpa [Bool.or_assoc] using hs
    · by_cases hp : ((some n : Option Int) == some 8) = true
      · right; left
        simp only [handleExitCode]
        rw [if_neg, if_pos hp]
        simpa [Bool.or_assoc] using hs
      · right; right
        simp only [handleExitCode, renderOptInt]
        rw [if_neg, if_neg hp]
        · simp
        · simpa [Bool.or_assoc] using hs

/-- Witness for C7 amended at the concrete environment returning exit code 5
with return_status enabled. -/
theorem c7_raw_exit_code_reported_witness :
    (run envOkExit5).outputSet = some ((run envOkExit5).exitCode) ∧
    (run envOkExit5).exitCode = some 5 ∧
    (handleExitCode (some 5) "FAILURE" "" = .debugCompleted (some 5) ∨
      handleExitCode (some 5) "FAILURE" "" = .warnPolicyViolationContinues (some 5) ∨
      handleExitCode (some 5) "FAILURE" "" = .warnFailedContinues ("Unknown exit code: " ++ toString (5 : Int))) :=
  ⟨(c7_raw_exit_code_reported envOkExit5 rfl).1,
   ((c7_raw_exit_code_reported envOkExit5 rfl).2.1 5 rfl).1,
   (c7_raw_exit_code_reported envOkExit5 rfl).2.2 5 "FAILURE"⟩

/-- The `isBridgeExecuted` state after the try and catch blocks, read off the
outcome of the try phase. -/
lemma isBridgeExecuted_spec (env : RunEnv) :
    (run env).isBridgeExecuted =
      (match (tryPhase env).2 with
       | .ok _ => false
       | .error m => getBridgeExitCode (some m)) := rfl

/-- Each SARIF upload flag factors through the shared gate: bridge executed,
not a pull-request event, and exit code 0 or 8. -/
lemma sarif_gate_of_any (env : RunEnv) (h : anySarifUploaded (run env) = true) :
    (run env).isBridgeExecuted = true ∧ env.isPullRequest = false ∧
    ((run env).exitCode = some 0 ∨ (run env).exitCode = some 8) := by
  have e1 : (run env).blackduckSarifArtifactUploaded =
      ((run env).isBridgeExecuted && !env.isPullRequest &&
        ((run env).exitCode == some 0 || (run env).exitCode == some 8) &&
        env.blackduckScaUrlSet && env.blackduckScaSarifCreate) := rfl
  have e2 : (run env).polarisSarifArtifactUploaded =
      ((run env).isBridgeExecuted && !env.isPullRequest &&
        ((run env).exitCode == some 0 || (run env).exitCode == some 8) &&
        env.polarisServerUrlSet && env.polarisSarifCreate) := rfl
  have e3 : (run env).blackduckSarifReportUploaded =
      ((run env).isBridgeExecuted && !env.isPullRequest &&
        ((run env).exitCode == some 0 || (run env).exitCode == some 8) &&
        env.githubTokenSet && env.blackduckScaUrlSet && env.blackduckUploadSarifReport) := rfl
  have e4 : (run env).polarisSarifReportUploaded =
      ((run env).isBridgeExecuted && !env.isPullRequest &&
        ((run env).exitCode == some 0 || (run env).exitCode == some 8) &&
        env.githubTokenSet && env.polarisServerUrlSet && env.polarisUploadSarifReport) := rfl
  unfold anySarifUploaded at h
  rw [e1, e2, e3, e4] at h
  simp only [Bool.or_eq_true, Bool.and_eq_true, Bool.not_eq_true', beq_iff_eq] at h
  refine ⟨?_, ?_, ?_⟩ <;> tauto

/-- C3: whenever a custom URL is supplied, the resolver either downloads from
that URL or skips, and it skips only when the cache already holds the
explicitly requested version — the custom URL is never silently ignored. -/
theorem c3_custom_url_never_ignored (req : AcquisitionRequest) (u : String)
    (h : req.customUrl = some u) :
    resolve req = .downloadFromCustomUrl u ∨
    (resolve req = .skip ∧ req.cached = true ∧
      ∃ v, req.requestedVersion = some v ∧ req.cachedVersion = some v) := by
  by_cases h3 : (req.cached && versionMatchesCache req) = true
  · right
    obtain ⟨hc, hvm⟩ := Bool.and_eq_true_iff.mp h3
    rcases hrv : req.requestedVersion with _ | v
    · exfalso
      simp [versionMatchesCache, hrv] at hvm
    · have hcv : req.cachedVersion = some v := by
        simpa [versionMatchesCache, hrv] using hvm
      exact ⟨by simp [resolve, h, h3], hc, v, rfl, hcv⟩
  · left
    simp [resolve, h, h3]

/-- Witness for C3 at the concrete airgap request carrying a custom URL. -/
theorem c3_custom_url_never_ignored_witness :
    resolve reqCustomAirgap = .downloadFromCustomUrl "https://intranet.example/bridge.zip" ∨
    (resolve reqCustomAirgap = .skip ∧ reqCustomAirgap.cached = true ∧
      ∃ v, reqCustomAirgap.requestedVersion = some v ∧
        reqCustomAirgap.cachedVersion = some v) :=
  c3_custom_url_never_ignored reqCustomAirgap "https://intranet.example/bridge.zip" rfl

/-- C8: the default resolution paths without airgap and without a custom URL:
a cache with no explicit version is kept; an explicitly requested version is
kept exactly when the cache already holds it and downloaded otherwise; and
without a cache the requested version, or else the latest, is downloaded. -/
theorem c8_non_airgap_default_resolution (req : AcquisitionRequest)
    (hag : req.airgapEnabled = false) (hu : req.customUrl = none) :
    (req.cached = true → req.requestedVersion = none → resolve req = .skip) ∧
    (∀ v : String, req.cached = true → req.requestedVersion = some v →
      (req.cachedVersion = some v → resolve req = .skip) ∧
      (req.cachedVersion ≠ some v → resolve req = .downloadVersion v)) ∧
    (req.cached = false →
      (∀ v : String, req.requestedVersion = some v → resolve req = .downloadVersion v) ∧
      (req.requestedVersion = none → resolve req = .downloadLatest)) := by
  refine ⟨?_, ?_, ?_⟩
  · intro hc hrv
    simp [resolve, hag, hu, hc, hrv]
  · intro v hc hrv
    constructor
    · intro hcv
      simp [resolve, hag, hu, hc, hrv, versionMatchesCache, hcv]
    · intro hcv
      simp [resolve, hag, hu, hc, hrv, versionMatchesCache, hcv]
  · intro hc
    constructor
    · intro v hrv
      simp [resolve, hag, hu, hc, hrv]
    · intro hrv
      simp [resolve, hag, hu, hc, hrv]

/-- Witness for C8 at the concrete cached request pinning 2.2.0 over a cached
2.1.1. -/
theorem c8_non_airgap_default_resolution_witness :
    resolve reqCachedMismatch = .downloadVersion "2.2.0" :=
  ((c8_non_airgap_default_resolution reqCachedMismatch rfl rfl).2.1 "2.2.0" rfl rfl).2
    (by decide)

/-- C9: when the bridge invocation ends in a thrown error, the recovered exit
code is a function of nothing but the last character of the trimmed error
message — a single digit recovers that digit, anything else recovers -1 —
so a multi-digit code 12 is reported as 2, a message ending in -1 as 1, and
a message ending in a letter as -1. -/
theorem c9_recovered_exit_code_last_char (env : RunEnv) (msg : String)
    (h : (tryPhase env).2 = .error msg) :
    (run env).exitCode =
      some (match (jsTrim msg).toList.getLast? with
            | some c => if c.isDigit then ((c.toNat : Int) - 48) else -1
            | none => -1) ∧
    getBridgeExitCodeAsNumericValue (some "Bridge failed with exit code 12") = 2 ∧
    getBridgeExitCodeAsNumericValue (some "Bridge exited with -1") = 1 ∧
    getBridgeExitCodeAsNumericValue (some "unexpected failure") = -1 := by
  refine ⟨?_, rfl, rfl, rfl⟩
  simp only [run, h]
  congr 1
  simp only [getBridgeExitCodeAsNumericValue, jsSliceLast]
  rcases hl : (jsTrim msg).toList.getLast? with _ | c
  · simp [jsParseIntSingle]
  · by_cases hd : c.isDigit <;> simp [jsParseIntSingle, String.toList, hd]

/-- Witness for C9 at the concrete environment whose bridge execution throws
a message ending in the multi-digit code 12. -/
theorem c9_recovered_exit_code_last_char_witness :
    (run envErrMsg12).exitCode = some 2 ∧
    getBridgeExitCodeAsNumericValue (some "Bridge failed with exit code 12") = 2 :=
  ⟨(c9_recovered_exit_code_last_char envErrMsg12 "Bridge failed with exit code 12" rfl).1,
   (c9_recovered_exit_code_last_char envErrMsg12 "Bridge failed with exit code 12" rfl).2.1⟩

/-- C10: a normally returning bridge execution never triggers diagnostics or
SARIF uploads; any upload requires the try phase to have thrown with a
trimmed message ending in a digit; and any SARIF upload additionally
requires a non-pull-request event and a recovered exit code of exactly 0
or 8. -/
theorem c10_uploads_gated_on_digit_throw :
    (∀ (env : RunEnv) (n : Int), (tryPhase env).2 = .ok n →
      (run env).diagnosticsUploaded = false ∧ anySarifUploaded (run env) = false) ∧
    (∀ env : RunEnv,
      (run env).diagnosticsUploaded = true ∨ anySarifUploaded (run env) = true →
      ∃ msg, (tryPhase env).2 = .error msg ∧ getBridgeExitCode (some msg) = true) ∧
    (∀ env : RunEnv, anySarifUploaded (run env) = true →
      env.isPullRequest = false ∧
      ((run env).exitCode = some 0 ∨ (run env).exitCode = some 8)) := by
  refine ⟨?_, ?_, ?_⟩
  · intro env n h
    simp [run, anySarifUploaded, h]
  · intro env h
    have hb : (run env).isBridgeExecuted = true := by
      rcases h with h | h
      · have e : (run env).diagnosticsUploaded =
            ((run env).isBridgeExecuted && env.includeDiagnostics) := rfl
        rw [e, Bool.and_eq_true] at h
        exact h.1
      · exact (sarif_gate_of_any env h).1
    rw [isBridgeExecuted_spec env] at hb
    rcases ho : (tryPhase env).2 with m | n
    · rw [ho] at hb
      exact ⟨m, rfl, hb⟩
    · rw [ho] at hb
      simp at hb
  · intro env h
    exact ⟨(sarif_gate_of_any env h).2.1, (sarif_gate_of_any env h).2.2⟩

/-- Witness for C10: a normal exit-8 run with all upload inputs on uploads
nothing, while the digit-ending throwing run is not a pull request and its
recovered exit code is 0 or 8. -/
theorem c10_uploads_gated_on_digit_throw_witness :
    (run envOkExit8).diagnosticsUploaded = false ∧
    anySarifUploaded (run envOkExit8) = false ∧
    envErrDigit.isPullRequest = false ∧
    ((run envErrDigit).exitCode = some 0 ∨ (run envErrDigit).exitCode = some 8) :=
  ⟨(c10_uploads_gated_on_digit_throw.1 envOkExit8 8 rfl).1,
   (c10_uploads_gated_on_digit_throw.1 envOkExit8 8 rfl).2,
   (c10_uploads_gated_on_digit_throw.2.2 envErrDigit rfl).1,
   (c10_uploads_gated_on_digit_throw.2.2 envErrDigit rfl).2⟩

end ScanApp
